import Mathlib

/-!
Verification of the GPS planner (`gps.cpp`), a C++11 translation of the
simplified GPS program from chapter 4 of Norvig's PAIP.

The embedding models the program faithfully:

* `Condition` is `String`, matching `using Condition = std::string`.
* `Op` mirrors the `Op` struct (action, preconds, add_list, del_list).
* `set_diff` and `set_union` mirror the two set-algebra functions,
  including `set_union`'s self-membership test on its second argument.
* The mutually recursive `achieve` / `apply_op` pair is modelled with a
  fuel parameter (the C++ recursion can diverge, e.g. on cyclic action
  libraries); every call burns one unit of fuel and returns `none` when
  fuel runs out.  The global `current_state` plus the printf trace are
  threaded explicitly as a `GState`; the global `current_operations`
  (read-only during a run) is the `ops` parameter.
* `std::any_of` / `std::all_of` are modelled as in-order, short-circuit
  folds (`anyOfApply`, `allOfAchieve`), matching the sequential library
  semantics the program relies on.
* `GPS` takes the same three parameters as the C++ function and, like it,
  reads only the globals (here: the `current_operations` and `GState`
  arguments), ignoring its `state` and `ops` parameters.
-/

abbrev Condition := String

structure Op where
  action : String
  preconds : List Condition
  add_list : List Condition
  del_list : List Condition
deriving DecidableEq, Repr

/-- `appropriate_p`: an Op is appropriate for a goal if the goal is in the
Op's `add_list` (membership via `std::find`). -/
def appropriate_p (goal : Condition) (op : Op) : Bool :=
  op.add_list.contains goal

/-- `find_all`: the sublist of `ops` satisfying `pred goal ·`, in order. -/
def find_all (goal : Condition) (ops : List Op) (pred : Condition → Op → Bool) :
    List Op :=
  ops.filter (fun elt => pred goal elt)

/-- `set_diff`: elements of `set1` not found in `set2`, in `set1`'s order. -/
def set_diff (set1 set2 : List Condition) : List Condition :=
  set1.filter (fun elt => !(set2.contains elt))

/-- `set_union` as written in the source: all of `set1`, then those elements
of `set2` that `std::find` fails to locate in `set2` itself (the second
loop's membership test searches `set2`, not the result or `set1`). -/
def set_union (set1 set2 : List Condition) : List Condition :=
  set1 ++ set2.filter (fun elt => !(set2.contains elt))

/-- The program state threaded through a run: the global `current_state`
and the trace of `Executing operation: %s.` lines printed so far. -/
structure GState where
  current_state : List Condition
  trace : List String
deriving DecidableEq, Repr

mutual

/-- `achieve(goal)`: `left` is the membership test of `goal` in
`current_state`; `right` is `std::any_of(candidates, apply_op)`.  The C++
code computes both unconditionally and returns `left || right`. -/
def achieve (ops : List Op) (fuel : Nat) (goal : Condition) (st : GState) :
    Option (Bool × GState) :=
  match fuel with
  | 0 => none
  | fuel + 1 =>
    let left := st.current_state.contains goal
    let candidates := find_all goal ops appropriate_p
    match anyOfApply ops fuel candidates st with
    | none => none
    | some (right, st') => some (left || right, st')
termination_by structural fuel

/-- `std::any_of(candidates, apply_op)`: in order, stopping at the first
success; state mutations of failed candidates persist. -/
def anyOfApply (ops : List Op) (fuel : Nat) (cands : List Op) (st : GState) :
    Option (Bool × GState) :=
  match fuel with
  | 0 => none
  | fuel + 1 =>
    match cands with
    | [] => some (false, st)
    | op :: rest =>
      match apply_op ops fuel op st with
      | none => none
      | some (true, st') => some (true, st')
      | some (false, st') => anyOfApply ops fuel rest st'
termination_by structural fuel

/-- `apply_op(op)`: if all preconditions are achieved (in order,
short-circuiting), print the trace line and set
`current_state := set_union (set_diff current_state op.del_list) op.add_list`. -/
def apply_op (ops : List Op) (fuel : Nat) (op : Op) (st : GState) :
    Option (Bool × GState) :=
  match fuel with
  | 0 => none
  | fuel + 1 =>
    match allOfAchieve ops fuel op.preconds st with
    | none => none
    | some (true, st') =>
      some (true,
        { current_state := set_union (set_diff st'.current_state op.del_list) op.add_list,
          trace := st'.trace ++ [op.action] })
    | some (false, st') => some (false, st')
termination_by structural fuel

/-- `std::all_of(goals, achieve)`: in order, stopping at the first failure;
state mutations of already-attempted goals persist. -/
def allOfAchieve (ops : List Op) (fuel : Nat) (goals : List Condition) (st : GState) :
    Option (Bool × GState) :=
  match fuel with
  | 0 => none
  | fuel + 1 =>
    match goals with
    | [] => some (true, st)
    | g :: rest =>
      match achieve ops fuel g st with
      | none => none
      | some (true, st') => allOfAchieve ops fuel rest st'
      | some (false, st') => some (false, st')
termination_by structural fuel

end

set_option linter.unusedVariables false in
/-- `GPS(state, goals, ops)`: attempts `std::all_of(goals, achieve)` and
prints SOLVED or FAILED (the returned `Bool`).  As in the source, the
`state` and `ops` parameters are never read: `achieve` operates on the
globals, modelled by the `current_operations` and `st` arguments. -/
def GPS (state : List Condition) (goals : List Condition) (ops : List Op)
    (current_operations : List Op) (fuel : Nat) (st : GState) :
    Option (Bool × GState) :=
  allOfAchieve current_operations fuel goals st

/-! The canonical son-to-school problem set up in `main`. -/

def son_at_home : Condition := "son-at-home"
def car_works : Condition := "car-works"
def son_at_school : Condition := "son-at-school"
def car_needs_battery : Condition := "car-needs-battery"
def shop_knows_problem : Condition := "shop-knows-problem"
def shop_has_money : Condition := "shop-has-money"
def know_phone_number : Condition := "know-phone-number"
def in_communication_with_shop : Condition := "in-communication-with-shop"
def have_phone_book : Condition := "have-phone-book"
def have_money : Condition := "have-money"

def canonical_state : List Condition :=
  [son_at_home, car_needs_battery, have_money, have_phone_book]

def canonical_ops : List Op :=
  [⟨"drive-son-to-school", [son_at_home, car_works], [son_at_school], [son_at_home]⟩,
   ⟨"shop-installs-battery", [car_needs_battery, shop_knows_problem, shop_has_money], [car_works], []⟩,
   ⟨"tell-shop-problem", [in_communication_with_shop], [shop_knows_problem], []⟩,
   ⟨"telephone-shop", [know_phone_number], [in_communication_with_shop], []⟩,
   ⟨"look-up-number", [have_phone_book], [know_phone_number], []⟩,
   ⟨"give-shop-money", [have_money], [shop_has_money], [have_money]⟩]

/-- The run performed by `main`: `GPS(current_state, {son_at_school},
current_operations)` with the globals initialised to the canonical problem. -/
def canonical_run : Option (Bool × GState) :=
  GPS canonical_state [son_at_school] canonical_ops canonical_ops 100
    ⟨canonical_state, []⟩

/-! ## Helper lemmas -/

/-- The second loop of `set_union` never fires: each element of `set2`
is found in `set2` by its own membership test. -/
lemma set_union_eq_left (s1 s2 : List Condition) : set_union s1 s2 = s1 := by
  have h : s2.filter (fun elt => !(s2.contains elt)) = [] := by
    rw [List.filter_eq_nil_iff]
    intro a ha
    simp [ha]
  simp [set_union, h]

lemma set_diff_sublist (s1 s2 : List Condition) : (set_diff s1 s2).Sublist s1 :=
  List.filter_sublist s1

/-- One unfolding of `achieve` at positive fuel. -/
lemma achieve_succ (ops : List Op) (fuel : Nat) (goal : Condition) (st : GState) :
    achieve ops (fuel + 1) goal st =
      match anyOfApply ops fuel (find_all goal ops appropriate_p) st with
      | none => none
      | some (right, st') => some (st.current_state.contains goal || right, st') := by
  rw [achieve]

/-- One unfolding of `anyOfApply` at positive fuel. -/
lemma anyOfApply_succ (ops : List Op) (fuel : Nat) (cands : List Op) (st : GState) :
    anyOfApply ops (fuel + 1) cands st =
      match cands with
      | [] => some (false, st)
      | op :: rest =>
        match apply_op ops fuel op st with
        | none => none
        | some (true, st') => some (true, st')
        | some (false, st') => anyOfApply ops fuel rest st' := by
  rw [anyOfApply.eq_def]

/-- One unfolding of `apply_op` at positive fuel. -/
lemma apply_op_succ (ops : List Op) (fuel : Nat) (op : Op) (st : GState) :
    apply_op ops (fuel + 1) op st =
      match allOfAchieve ops fuel op.preconds st with
      | none => none
      | some (true, st') =>
        some (true,
          { current_state := set_union (set_diff st'.current_state op.del_list) op.add_list,
            trace := st'.trace ++ [op.action] })
      | some (false, st') => some (false, st') := by
  rw [apply_op]

/-- One unfolding of `allOfAchieve` at positive fuel. -/
lemma allOfAchieve_succ (ops : List Op) (fuel : Nat) (goals : List Condition) (st : GState) :
    allOfAchieve ops (fuel + 1) goals st =
      match goals with
      | [] => some (true, st)
      | g :: rest =>
        match achieve ops fuel g st with
        | none => none
        | some (true, st') => allOfAchieve ops fuel rest st'
        | some (false, st') => some (false, st') := by
  rw [allOfAchieve.eq_def]

lemma achieve_zero (ops : List Op) (goal : Condition) (st : GState) :
    achieve ops 0 goal st = none := rfl

lemma anyOfApply_zero (ops : List Op) (cands : List Op) (st : GState) :
    anyOfApply ops 0 cands st = none := rfl

lemma apply_op_zero (ops : List Op) (op : Op) (st : GState) :
    apply_op ops 0 op st = none := rfl

lemma allOfAchieve_zero (ops : List Op) (goals : List Condition) (st : GState) :
    allOfAchieve ops 0 goals st = none := rfl

lemma anyOfApply_succ_nil (ops : List Op) (fuel : Nat) (st : GState) :
    anyOfApply ops (fuel + 1) [] st = some (false, st) := rfl

lemma anyOfApply_succ_cons (ops : List Op) (fuel : Nat) (op : Op) (rest : List Op)
    (st : GState) :
    anyOfApply ops (fuel + 1) (op :: rest) st =
      match apply_op ops fuel op st with
      | none => none
      | some (true, st') => some (true, st')
      | some (false, st') => anyOfApply ops fuel rest st' := rfl

lemma allOfAchieve_succ_nil (ops : List Op) (fuel : Nat) (st : GState) :
    allOfAchieve ops (fuel + 1) [] st = some (true, st) := rfl

lemma allOfAchieve_succ_cons (ops : List Op) (fuel : Nat) (g : Condition)
    (rest : List Condition) (st : GState) :
    allOfAchieve ops (fuel + 1) (g :: rest) st =
      match achieve ops fuel g st with
      | none => none
      | some (true, st') => allOfAchieve ops fuel rest st'
      | some (false, st') => some (false, st') := rfl

/-- Master invariant: every terminating call of the engine returns a
`current_state` that is a sublist of the entry `current_state`.  The only
mutation site is `apply_op`'s success branch, where `set_union` contributes
nothing (its second loop never fires) and `set_diff` is a filter. -/
lemma run_state_sublist (ops : List Op) :
    ∀ fuel : Nat,
      (∀ goal st b st', achieve ops fuel goal st = some (b, st') →
        st'.current_state.Sublist st.current_state) ∧
      (∀ cands st b st', anyOfApply ops fuel cands st = some (b, st') →
        st'.current_state.Sublist st.current_state) ∧
      (∀ op st b st', apply_op ops fuel op st = some (b, st') →
        st'.current_state.Sublist st.current_state) ∧
      (∀ goals st b st', allOfAchieve ops fuel goals st = some (b, st') →
        st'.current_state.Sublist st.current_state) := by
  intro fuel
  induction fuel with
  | zero =>
    refine ⟨?_, ?_, ?_, ?_⟩ <;> intro x st b st' h <;>
      simp [achieve_zero, anyOfApply_zero, apply_op_zero, allOfAchieve_zero] at h
  | succ fuel ih =>
    obtain ⟨iha, ihany, ihap, ihall⟩ := ih
    refine ⟨?_, ?_, ?_, ?_⟩
    · intro goal st b st' h
      rw [achieve_succ] at h
      split at h
      · exact Option.noConfusion h
      · rename_i right st₁ heq
        injection h with hp
        injection hp with h1 h2
        subst h2
        exact ihany _ _ _ _ heq
    · intro cands st b st' h
      cases cands with
      | nil =>
        rw [anyOfApply_succ_nil] at h
        injection h with hp
        injection hp with h1 h2
        subst h2
        exact List.Sublist.refl _
      | cons op rest =>
        rw [anyOfApply_succ_cons] at h
        split at h
        · exact Option.noConfusion h
        · rename_i st₁ heq
          injection h with hp
          injection hp with h1 h2
          subst h2
          exact ihap _ _ _ _ heq
        · rename_i st₁ heq
          exact (ihany _ _ _ _ h).trans (ihap _ _ _ _ heq)
    · intro op st b st' h
      rw [apply_op_succ] at h
      split at h
      · exact Option.noConfusion h
      · rename_i st₁ heq
        injection h with hp
        injection hp with h1 h2
        subst h2
        refine List.Sublist.trans ?_ (ihall _ _ _ _ heq)
        show (set_union (set_diff st₁.current_state op.del_list) op.add_list).Sublist
          st₁.current_state
        rw [set_union_eq_left]
        exact set_diff_sublist _ _
      · rename_i st₁ heq
        injection h with hp
        injection hp with h1 h2
        subst h2
        exact ihall _ _ _ _ heq
    · intro goals st b st' h
      cases goals with
      | nil =>
        rw [allOfAchieve_succ_nil] at h
        injection h with hp
        injection hp with h1 h2
        subst h2
        exact List.Sublist.refl _
      | cons g rest =>
        rw [allOfAchieve_succ_cons] at h
        split at h
        · exact Option.noConfusion h
        · rename_i st₁ heq
          exact (ihall _ _ _ _ h).trans (iha _ _ _ _ heq)
        · rename_i st₁ heq
          injection h with hp
          injection hp with h1 h2
          subst h2
          exact iha _ _ _ _ heq

/-! ## Claims -/

/-- Claim C1 (refuted; code bug in `set_union`): a successful `apply_op(op)`
is claimed to leave every element of `op.add_list` in the World State, in
particular a condition present in both `del_list` and `add_list`.  In the
code `set_union` never appends anything from its second argument, so the
adds are silently dropped: applying `⟨"op-a", [], ["p"], ["p"]⟩` in World
State `["p"]` succeeds (its empty precondition list is vacuously achieved)
yet produces the state `[]`, from which `"p"` — a member of both
`add_list` and `del_list` — is absent. -/
theorem apply_op_drops_add_list :
    apply_op [] 2 ⟨"op-a", [], ["p"], ["p"]⟩ ⟨["p"], []⟩
      = some (true, ⟨[], ["op-a"]⟩) ∧
    "p" ∈ (Op.mk "op-a" [] ["p"] ["p"]).add_list ∧
    "p" ∈ (Op.mk "op-a" [] ["p"] ["p"]).del_list := by
  refine ⟨rfl, ?_, ?_⟩ <;> simp

/-- Claim C2 (refuted; code bug in `achieve`): for a goal already in the
World State, `achieve` is claimed to return true immediately with zero
mutations and zero trace emissions.  The code computes `left` and the
candidate attempts unconditionally and only then returns `left || right`:
with `"g"` in the state and the single op `⟨"add-del-g", [], ["g"], ["g"]⟩`,
`achieve "g"` returns true but also executes the op, emitting a trace
record and mutating the state from `["g"]` to `[]`. -/
theorem achieve_ignores_membership_short_circuit :
    ("g" : Condition) ∈ (GState.mk ["g"] []).current_state ∧
    achieve [⟨"add-del-g", [], ["g"], ["g"]⟩] 4 "g" ⟨["g"], []⟩
      = some (true, ⟨[], ["add-del-g"]⟩) := by
  refine ⟨?_, rfl⟩
  simp

/-- Claim C3 (confirmed): on the canonical son-to-school problem the run is
solved and the trace is exactly look-up-number, telephone-shop,
tell-shop-problem, give-shop-money, shop-installs-battery,
drive-son-to-school, in that order. -/
theorem canonical_run_solved :
    canonical_run = some (true, ⟨[car_needs_battery, have_phone_book],
      ["look-up-number", "telephone-shop", "tell-shop-problem",
       "give-shop-money", "shop-installs-battery", "drive-son-to-school"]⟩) := rfl

/-- Claim C4 (refuted; code bug in `set_union`): `set_union(A, B)` is
claimed to contain every element of `B`.  Its second loop tests each
element of `B` for membership in `B` itself, which always succeeds, so the
element is never appended: `set_union [] ["x"]` is `[]` and in particular
does not contain `"x"`. -/
theorem set_union_omits_second_argument :
    set_union [] ["x"] = [] ∧ ("x" : Condition) ∉ set_union [] ["x"] := by
  refine ⟨rfl, ?_⟩
  decide

/-- Claim C5 (refuted; code bug in `achieve`): with the state `["g"]` and
the single op `⟨"add-g", [], ["g"], []⟩`, a first `achieve "g"` returns
true (trace `["add-g"]`), and an immediately following second call emits a
further trace record (`["add-g", "add-g"]`) because `achieve` re-attempts
the candidate op even for a satisfied goal. -/
theorem achieve_second_call_retraces :
    achieve [⟨"add-g", [], ["g"], []⟩] 4 "g" ⟨["g"], []⟩
      = some (true, ⟨["g"], ["add-g"]⟩) ∧
    achieve [⟨"add-g", [], ["g"], []⟩] 4 "g" ⟨["g"], ["add-g"]⟩
      = some (true, ⟨["g"], ["add-g", "add-g"]⟩) := ⟨rfl, rfl⟩

/-- Claim C6 (confirmed): if the goal is not in the World State and no op's
`add_list` contains it, `achieve` returns false and leaves the whole state
(World State and trace) exactly unchanged. -/
theorem achieve_fails_without_candidates (ops : List Op) (fuel : Nat)
    (goal : Condition) (st : GState)
    (h1 : goal ∉ st.current_state)
    (h2 : ∀ op ∈ ops, goal ∉ op.add_list) :
    achieve ops (fuel + 1 + 1) goal st = some (false, st) := by
  have hc : find_all goal ops appropriate_p = [] := by
    rw [find_all, List.filter_eq_nil_iff]
    intro op hop
    simp [appropriate_p, h2 op hop]
  rw [achieve_succ, hc, anyOfApply_succ_nil]
  simp [h1]

/-- Witness for C6 at a concrete input. -/
theorem achieve_fails_without_candidates_witness :
    ("g" : Condition) ∉ (GState.mk [] []).current_state ∧
    achieve [] 2 "g" ⟨[], []⟩ = some (false, ⟨[], []⟩) :=
  ⟨by simp, achieve_fails_without_candidates [] 0 "g" ⟨[], []⟩ (by simp) (by simp)⟩

/-- Claim C7 (confirmed): `set_diff A B` contains exactly the elements of
`A` absent from `B`, is a sublist of `A` (so `A`'s order is preserved),
`set_diff A A` is empty, and an empty first input yields an empty output. -/
theorem set_diff_spec :
    (∀ (A B : List Condition) (x : Condition),
        x ∈ set_diff A B ↔ x ∈ A ∧ x ∉ B) ∧
    (∀ A B : List Condition, (set_diff A B).Sublist A) ∧
    (∀ A : List Condition, set_diff A A = []) ∧
    (∀ B : List Condition, set_diff [] B = []) := by
  refine ⟨?_, ?_, ?_, ?_⟩
  · intro A B x
    simp [set_diff, List.mem_filter]
  · intro A B
    exact List.filter_sublist A
  · intro A
    rw [set_diff, List.filter_eq_nil_iff]
    intro a ha
    simp [ha]
  · intro B
    rfl

/-- Witness for C7 at a concrete input. -/
theorem set_diff_spec_witness : ("a" : Condition) ∈ set_diff ["a"] ["b"] :=
  (set_diff_spec.1 ["a"] ["b"] "a").mpr ⟨by decide, by decide⟩

/-- Claim C8 (confirmed): `set_union s1 s2` is element-for-element equal to
`s1`; nothing from `s2` is ever appended, so add-lists never contribute any
condition to the World State. -/
theorem set_union_returns_first_unchanged (s1 s2 : List Condition) :
    set_union s1 s2 = s1 :=
  set_union_eq_left s1 s2

/-- Claim C9 (confirmed): the World State never grows.  After any
terminating call of `achieve`, `apply_op` or `GPS`, the resulting
`current_state` is a sublist (hence a subset) of its prior value. -/
theorem world_state_only_shrinks (ops : List Op) (fuel : Nat) :
    (∀ goal st b st', achieve ops fuel goal st = some (b, st') →
      st'.current_state.Sublist st.current_state) ∧
    (∀ op st b st', apply_op ops fuel op st = some (b, st') →
      st'.current_state.Sublist st.current_state) ∧
    (∀ state goals opsArg st b st',
      GPS state goals opsArg ops fuel st = some (b, st') →
      st'.current_state.Sublist st.current_state) := by
  obtain ⟨ha, hany, hap, hall⟩ := run_state_sublist ops fuel
  exact ⟨ha, hap, fun state goals opsArg st b st' h => hall goals st b st' h⟩

/-- Witness for C9 at a concrete input. -/
theorem world_state_only_shrinks_witness :
    achieve [] 2 "g" ⟨["g"], []⟩ = some (true, ⟨["g"], []⟩) ∧
    (["g"] : List Condition).Sublist ["g"] :=
  ⟨rfl, (world_state_only_shrinks [] 2).1 "g" ⟨["g"], []⟩ true ⟨["g"], []⟩ rfl⟩

/-- Claim C10 (confirmed): `GPS` never reads its `state` and `ops`
parameters; with the globals (`current_operations`, the threaded `GState`)
held equal, any two values of those parameters give the identical outcome,
trace, and final state. -/
theorem GPS_depends_only_on_globals (state1 state2 : List Condition)
    (goals : List Condition) (ops1 ops2 : List Op)
    (current_operations : List Op) (fuel : Nat) (st : GState) :
    GPS state1 goals ops1 current_operations fuel st
      = GPS state2 goals ops2 current_operations fuel st := rfl
